import Mathlib

/-!
Verification development for the DGT-ZK confidential transaction ledger.

Shallow embedding of the repository's Python modules:
* `src/encryption/pedersen_commitment.py` — Pedersen commitments,
* `src/verification/bulletproofs/{emulation,range_proof,bulletproofs_utils}.py`
  — emulated bulletproof range proofs,
* `src/data/ledger_db.py` — ledger key-value store and balances,
* `src/data/notary_db.py` — notary records with lazy expiry,
* `src/transactions/transaction_emulator.py` — anchoring / cancellation,
* `src/verification/compliance_verification.py` — PSI compliance checks,
* `src/encryption/signature.py` — ECDSA signature verification wrapper.

External cryptographic primitives (SHA-256, Keccak, the ECDSA core,
Paillier/Schnorr encryption) are opaque collaborators of the repository;
they enter the embedding as explicit function parameters.  Machine-level
integers do not occur: all Python ints are unbounded, so `Nat`/`Int` model
them exactly.  Fallible Python code (a `raise`) is modelled with `Except`.
-/

/-- Python exceptions that the embedded code can raise.  `valueError`
stands for Python's `ValueError` (the only exception the modelled paths
raise themselves); `typeError` is kept for completeness. -/
inductive PyError where
  | valueError : PyError
  | typeError : PyError
deriving DecidableEq, Repr

/-! ### Pedersen commitments (`src/encryption/pedersen_commitment.py`)

The module works in the subgroup generated by the secp256k1 base point
`G` (`curve.generator`, order `n = curve.order`).  That subgroup is
cyclic of order `n`, so a point `G * k` is represented faithfully by its
discrete logarithm `k % n`; point addition adds logarithms mod `n` and
point equality is equality of the logarithms.  Both summands of the
commitment use the single generator `G` — exactly as the source does
(`commitment = (G * value) + (G * random_factor)`).  -/

/-- Order of the secp256k1 group (`curve.order` in the source). -/
def secp256k1_order : Nat :=
  115792089237316195423570985008687907852837564279074904382605163141518161494337

/-- A point of the subgroup generated by `G`, represented by its discrete
logarithm modulo the group order. -/
abbrev ECPoint := Nat

/-- `create_commitment(value, random_factor=None)` from
`pedersen_commitment.py` lines 47-61.  Python's
`random_factor = random_factor or generate_random()` treats both `None`
and `0` as absent and replaces them by a fresh random scalar; the fresh
draw of `generate_random()` (`secrets.randbelow(n)`) is passed in
explicitly as `fresh`.  The commitment is `(G*value) + (G*random_factor)`,
i.e. the discrete logarithm `(value + r) % n`. -/
def create_commitment (value : Nat) (random_factor : Option Nat) (fresh : Nat) :
    ECPoint × Nat :=
  let r := match random_factor with
    | none => fresh
    | some r0 => if r0 = 0 then fresh else r0
  (((value + r) % secp256k1_order), r)

/-- `verify_commitment(commitment, value, random_factor)` from
`pedersen_commitment.py` lines 64-77: recomputes
`(G*value) + (G*random_factor)` and compares points. -/
def verify_commitment (commitment : ECPoint) (value : Nat) (random_factor : Nat) :
    Bool :=
  commitment == (value + random_factor) % secp256k1_order

/-! ### Bulletproof emulation
(`src/verification/bulletproofs/emulation.py`, `bulletproofs_utils.py`,
`range_proof.py`)

The emulated backend treats commitments as Python ints
(`commitment (int)` in the docstrings), so the whole pipeline is embedded
over `Int`.  `hashlib.sha256` is an external primitive: it enters as the
parameter `sha : String → Nat`, standing for the digest of the UTF-8
bytes of the transcript read as a big-endian integer
(`int.from_bytes(hash_value, "big")` in the source). -/

/-- `compute_challenge(transcript, length=256)` from
`bulletproofs_utils.py` lines 31-47: SHA-256 digest of the transcript as
a big-endian integer, reduced mod `2 ** length`. -/
def compute_challenge (sha : String → Nat) (transcript : String)
    (length : Nat := 256) : Nat :=
  sha transcript % (2 ^ length)

/-- Modelled from the spec: `check_range`, imported by `emulation.py`
from `range_proof.py`, is absent from the source tree.  The spec's
range-check contract (§4.2, §8: a value is acceptable iff it lies in
`[min, max]`) and the sibling helper `validate_commitment_range`
(`bulletproofs_utils.py` lines 91-105, `range_min <= commitment <=
range_max`) fix its behaviour: an inclusive interval test. -/
def check_range (commitment range_min range_max : Int) : Bool :=
  decide (range_min ≤ commitment ∧ commitment ≤ range_max)

/-- `generate_bulletproof(commitment, range_min, range_max,
simulate_correct=True)` from `emulation.py` lines 31-54: raises
`ValueError` when `check_range` fails, otherwise returns the challenge of
the transcript `f"{commitment}-{range_min}-{range_max}-{proof_status}"`. -/
def generate_bulletproof (sha : String → Nat)
    (commitment range_min range_max : Int) (simulate_correct : Bool := true) :
    Except PyError Nat :=
  if check_range commitment range_min range_max then
    let proof_status := if simulate_correct then "valid" else "invalid"
    let transcript :=
      toString commitment ++ "-" ++ toString range_min ++ "-" ++
        toString range_max ++ "-" ++ proof_status
    .ok (compute_challenge sha transcript)
  else
    .error .valueError

/-- `verify_bulletproof(commitment, proof, range_min, range_max,
expected_correct=True)` from `emulation.py` lines 57-75: regenerates the
"correct" proof (propagating its `ValueError`) and compares. -/
def verify_bulletproof (sha : String → Nat)
    (commitment : Int) (proof : Nat) (range_min range_max : Int)
    (expected_correct : Bool := true) : Except PyError Bool := do
  let correct_proof ← generate_bulletproof sha commitment range_min range_max
    expected_correct
  pure (proof == correct_proof)

/-- `create_range_proof(amount, g, h, range_min, range_max)` from
`range_proof.py` lines 51-67, composed with the emulated backend (the
configured implementation in `bulletproofs_core.py`, line 50).  The
internal random draw `blinding_factor = secrets.randbelow(secp256k1.q)`
is passed in explicitly as `blinding_factor`; in the emulated integer
domain the Pedersen commitment is `g * amount + h * blinding_factor`. -/
def create_range_proof (sha : String → Nat)
    (amount g h range_min range_max blinding_factor : Int) :
    Except PyError (Int × Nat) := do
  let commitment := g * amount + h * blinding_factor
  let proof ← generate_bulletproof sha commitment range_min range_max
  pure (commitment, proof)

/-! ### Association-list key-value store

LMDB (`lmdb.open` / `txn.put` / `txn.get` / `txn.delete` / cursor scan)
is the external storage collaborator of `ledger_db.py` and
`notary_db.py`.  It is a map from byte-string keys to values; the
embedding uses an association list with unique keys.  `txn.put`
overwrites an existing key (LMDB's default `overwrite=True`), `txn.get`
returns the stored value or `None`, `txn.delete` removes the key, and a
cursor iterates over all entries. -/

/-- `txn.put key v` of the LMDB collaborator: overwrite the first
occurrence of the key, or append. -/
def put_kv {α : Type} (k : String) (v : α) :
    List (String × α) → List (String × α)
  | [] => [(k, v)]
  | (k', v') :: t => if k' = k then (k, v) :: t else (k', v') :: put_kv k v t

/-- `txn.get key` of the LMDB collaborator: first value stored at the key. -/
def get_kv {α : Type} (k : String) : List (String × α) → Option α
  | [] => none
  | (k', v') :: t => if k' = k then some v' else get_kv k t

/-- `txn.delete key` of the LMDB collaborator: drop the entries at the key. -/
def delete_kv {α : Type} (k : String) (db : List (String × α)) :
    List (String × α) :=
  db.filter (fun kv => decide (kv.1 ≠ k))

/-- Python's `str.startswith`, used for the cursor prefix scans: a string
begins with the given prefix (character-wise). -/
def starts_with_str (s pre : String) : Bool :=
  s.data.take pre.data.length == pre.data

/-! ### Ledger store (`src/data/ledger_db.py`)

A stored value is the canonical-JSON serialization of the transaction
dict; since `json.loads(json.dumps(tx)) = tx`, the embedding stores the
transaction record itself.  `_generate_tx_id` (lines 137-147) is
`sha256(json.dumps(tx, sort_keys=True)).hexdigest()`; SHA-256 being an
external primitive, the id computation enters as the deterministic
parameter `gen_tx_id`. -/

/-- Transaction record as stored by `ledger_db.py` (`TX_FAMILY`,
`sender`, `recipient`, `amount`, `signature`, per the docstring of
`save_transaction`). -/
structure Tx where
  txFamily : String
  sender : String
  recipient : String
  amount : Int
  signature : String
deriving DecidableEq, Repr

/-- Ledger key `f"{tx['TX_FAMILY']}_{tx_id}"` from `save_transaction`. -/
def tx_key (gen_tx_id : Tx → String) (tx : Tx) : String :=
  tx.txFamily ++ "_" ++ gen_tx_id tx

/-- `LedgerDB.save_transaction(tx)` from `ledger_db.py` lines 48-60: one
unconditional `txn.put` of the keyed record inside a write transaction.
The source raises nothing on a pre-existing key, so the `Except` layer
(the claim's error channel) is always `.ok`. -/
def save_transaction (gen_tx_id : Tx → String) (db : List (String × Tx))
    (tx : Tx) : Except PyError (List (String × Tx)) :=
  .ok (put_kv (tx_key gen_tx_id tx) tx db)

/-- `LedgerDB.get_balance(address, tx_family)` from `ledger_db.py` lines
80-101: scan every record, keep keys starting with `f"{tx_family}_"`,
add the amount when the recipient matches, else subtract it when the
sender matches (`if` / `elif` in the source). -/
def get_balance (address tx_family : String) (db : List (String × Tx)) : Int :=
  db.foldl
    (fun balance kv =>
      if starts_with_str kv.1 (tx_family ++ "_") then
        if kv.2.recipient = address then balance + kv.2.amount
        else if kv.2.sender = address then balance - kv.2.amount
        else balance
      else balance)
    0

/-! ### Notary store (`src/data/notary_db.py`)

Timestamps are stored as `datetime.isoformat()` strings and compared
after `datetime.fromisoformat`; since that round-trip is the identity
and ISO-8601 order is chronological order, times are embedded as `Int`. -/

/-- Notary record (`record_data` built in `save_notary_record`, lines
60-69): content, signature, creation timestamp, optional `expires_at`. -/
structure NotaryRecord where
  content : String
  signature : String
  timestamp : Int
  expiresAt : Option Int
deriving DecidableEq, Repr

/-- `NotaryDB.get_notary_record(record_id)` from `notary_db.py` lines
79-100, with `datetime.utcnow()` passed in as `now`: look up
`f"notary_{record_id}"`; if present with `expires_at` in the past
(`utcnow > expiration_time`), delete it and return `None`; otherwise
return the record.  The pair carries the store state after the read
(lazy deletion mutates it). -/
def get_notary_record (now : Int) (db : List (String × NotaryRecord))
    (record_id : String) : Option NotaryRecord × List (String × NotaryRecord) :=
  let record_key := "notary_" ++ record_id
  match get_kv record_key db with
  | some record =>
    match record.expiresAt with
    | some expiration_time =>
      if now > expiration_time then (none, delete_kv record_key db)
      else (some record, db)
    | none => (some record, db)
  | none => (none, db)

/-- `NotaryDB.list_notary_records(include_expired=False)` from
`notary_db.py` lines 102-124: cursor scan keeping keys that start with
`b"notary_"`, skipping records whose `expires_at` lies in the past
unless `include_expired` is set. -/
def list_notary_records (now : Int) (include_expired : Bool)
    (db : List (String × NotaryRecord)) : List NotaryRecord :=
  (db.filter (fun kv =>
    starts_with_str kv.1 "notary_" &&
      (match kv.2.expiresAt with
       | some expiration_time =>
         if ¬ include_expired then ¬ (now > expiration_time) else true
       | none => true))).map (fun kv => kv.2)

/-! ### Transaction emulator (`src/transactions/transaction_emulator.py`)

`notary_storage[tx_id] = tx` with `tx["anchored"] = time.time()`; the
only field cancellation reads is `anchored`, so the store maps tx ids to
anchor times.  `time.time()` is passed in explicitly as `now`. -/

/-- In-memory emulator state (`__init__`, lines 38-45):
`notary_storage` and the 120-second `cancellation_window`. -/
structure TransactionEmulator where
  notaryStorage : List (String × Int)
  cancellationWindow : Int
deriving DecidableEq, Repr

/-- Fresh emulator: empty storage, `cancellation_window = 120` seconds. -/
def TransactionEmulator.init : TransactionEmulator :=
  { notaryStorage := [], cancellationWindow := 120 }

/-- `TransactionEmulator.anchor_transaction(tx)` from lines 114-127:
record `anchored = time.time()` under the transaction id. -/
def anchor_transaction (em : TransactionEmulator) (tx_id : String)
    (now : Int) : TransactionEmulator :=
  { em with notaryStorage := put_kv tx_id now em.notaryStorage }

/-- `TransactionEmulator.cancel_transaction(tx_id)` from lines 129-145:
return `False` when the id is absent or `time.time() - anchored` exceeds
the cancellation window; otherwise delete the anchor and return `True`. -/
def cancel_transaction (em : TransactionEmulator) (now : Int)
    (tx_id : String) : Bool × TransactionEmulator :=
  match get_kv tx_id em.notaryStorage with
  | none => (false, em)
  | some anchored =>
    if now - anchored > em.cancellationWindow then (false, em)
    else (true, { em with notaryStorage := delete_kv tx_id em.notaryStorage })

/-! ### PSI compliance (`src/verification/psi_protocol.py`,
`src/verification/compliance_verification.py`)

`PSIScheme` wraps the external Paillier / Schnorr primitives; its
Paillier-branch `compute_intersection` (lines 75-76) is a plain
membership filter over the encrypted sets.  `ComplianceVerification`
dispatches every set operation through the configured scheme, so
`check_compliance` is embedded with the scheme's
`encrypt_set` / `compute_intersection` composition as an explicit
function parameter `intersect` and the loaded blacklist / whitelist as
arguments. -/

/-- `PSIScheme.compute_intersection(encrypted_set, reference_set)` from
`psi_protocol.py` lines 75-76 (Paillier branch):
`[item for item in encrypted_set if item in reference_set]`. -/
def psi_intersect {α : Type} [DecidableEq α] (encrypted_set reference_set : List α) :
    List α :=
  encrypted_set.filter (fun item => decide (item ∈ reference_set))

/-- `COMPLIANCE_LEVEL_BASIC` from `verification_constants.py` line 39. -/
def COMPLIANCE_LEVEL_BASIC : Nat := 1

/-- `COMPLIANCE_LEVEL_ADVANCED` from `verification_constants.py` line 40. -/
def COMPLIANCE_LEVEL_ADVANCED : Nat := 2

/-- Compliance report built by `check_compliance`
(`compliance_verification.py` lines 88-97). -/
structure ComplianceReport where
  blacklistMatches : List String
  whitelistMatches : List String
  complianceStatus : String
  details : Option String
deriving DecidableEq, Repr

/-- `ComplianceVerification.check_compliance(address_set)` from
`compliance_verification.py` lines 70-99: intersect the candidate set
with the (encrypted) blacklist and whitelist, set the status to
`"Non-compliant"` exactly when the blacklist intersection is non-empty,
and at the advanced compliance level add a details note. -/
def check_compliance (intersect : List String → List String → List String)
    (blacklist whitelist : List String) (compliance_level : Nat)
    (address_set : List String) : ComplianceReport :=
  let blacklist_matches := intersect address_set blacklist
  let whitelist_matches := intersect address_set whitelist
  { blacklistMatches := blacklist_matches
    whitelistMatches := whitelist_matches
    complianceStatus :=
      if blacklist_matches = [] then "Compliant" else "Non-compliant"
    details :=
      if compliance_level = COMPLIANCE_LEVEL_ADVANCED then
        some "Advanced verification includes additional checks."
      else none }

/-- `ComplianceVerification.verify_transaction(tx)` from
`compliance_verification.py` lines 101-118: candidate set
`[tx["sender"], tx["recipient"]]`, then compare the resulting status
with `"Compliant"`. -/
def compliance_verify_transaction
    (intersect : List String → List String → List String)
    (blacklist whitelist : List String) (compliance_level : Nat)
    (sender recipient : String) : Bool :=
  let address_set := [sender, recipient]
  let report := check_compliance intersect blacklist whitelist
    compliance_level address_set
  report.complianceStatus == "Compliant"

/-! ### Signature verification (`src/encryption/signature.py`)

`verify_signature(tx, public_key, signature)` (lines 64-81):
`VerifyingKey.from_string(bytes.fromhex(public_key))` runs outside the
`try`, the message is `keccak(text=str(tx)).digest()`, and the `try`
wraps only `public_key_obj.verify(bytes.fromhex(signature), message)`
with `except BadSignatureError: return False`.  The external pieces are
parameters: `keccak_of_tx` (serialization + Keccak digest of the
transaction), `from_string_ok` (whether `VerifyingKey.from_string`
accepts the public-key bytes), and `ecdsa_verify` (the library
verification; its `BadSignatureError` on a mismatch, caught and turned
into `False`, is folded into a `false` result).  `bytes.fromhex` raises
`ValueError` on a non-hex or odd-length string — and `ValueError` is not
`BadSignatureError`, so it escapes the `try`. -/

/-- Value of one hexadecimal digit, or `none` (Python `ValueError`). -/
def hex_digit_val (c : Char) : Option Nat :=
  if '0' ≤ c ∧ c ≤ '9' then some (c.toNat - '0'.toNat)
  else if 'a' ≤ c ∧ c ≤ 'f' then some (c.toNat - 'a'.toNat + 10)
  else if 'A' ≤ c ∧ c ≤ 'F' then some (c.toNat - 'A'.toNat + 10)
  else none

/-- `bytes.fromhex` on a list of characters: pairs of hex digits;
`none` models the `ValueError` on a non-hex character or odd length. -/
def bytes_fromhex_list : List Char → Option (List Nat)
  | [] => some []
  | [_] => none
  | c1 :: c2 :: t => do
    let h ← hex_digit_val c1
    let l ← hex_digit_val c2
    let rest ← bytes_fromhex_list t
    pure ((h * 16 + l) :: rest)

/-- `bytes.fromhex(s)`: decode a hex string to bytes, `none` on
`ValueError`. -/
def bytes_fromhex (s : String) : Option (List Nat) :=
  bytes_fromhex_list s.data

/-- `verify_signature(tx, public_key, signature)` from `signature.py`
lines 64-81.  Raises (`.error .valueError`) when either hex decode
fails or the public-key bytes are rejected by
`VerifyingKey.from_string`; returns the boolean outcome of the ECDSA
core otherwise (`BadSignatureError` already folded into `false`). -/
def verify_signature (keccak_of_tx : Tx → List Nat)
    (from_string_ok : List Nat → Bool)
    (ecdsa_verify : List Nat → List Nat → List Nat → Bool)
    (tx : Tx) (public_key signature : String) : Except PyError Bool :=
  match bytes_fromhex public_key with
  | none => .error .valueError
  | some pk_bytes =>
    if from_string_ok pk_bytes then
      let message := keccak_of_tx tx
      match bytes_fromhex signature with
      | none => .error .valueError
      | some sig_bytes => .ok (ecdsa_verify pk_bytes sig_bytes message)
    else .error .valueError

/-! ### Claim-side balance formulas (C9)

`balance_spec_c9` follows the claim's words: `+amount` summed over every
family record whose recipient is the address, minus `amount` summed over
every family record whose sender is the address — both clauses applied
to every record independently.  `balance_amended_c9` is the minimal
correction: the source's `elif` gives the recipient clause precedence,
so a record matching both contributes only `+amount`. -/

/-- Balance as the claim states it: the two clauses are independent sums. -/
def balance_spec_c9 (address tx_family : String) (db : List (String × Tx)) : Int :=
  (((db.filter (fun kv =>
      starts_with_str kv.1 (tx_family ++ "_") && kv.2.recipient == address)).map
        (fun kv => kv.2.amount)).sum)
  - (((db.filter (fun kv =>
      starts_with_str kv.1 (tx_family ++ "_") && kv.2.sender == address)).map
        (fun kv => kv.2.amount)).sum)

/-- Balance with the recipient clause taking precedence (the `elif`). -/
def balance_amended_c9 (address tx_family : String)
    (db : List (String × Tx)) : Int :=
  (((db.filter (fun kv =>
      starts_with_str kv.1 (tx_family ++ "_") && kv.2.recipient == address)).map
        (fun kv => kv.2.amount)).sum)
  - (((db.filter (fun kv =>
      starts_with_str kv.1 (tx_family ++ "_") && kv.2.sender == address
        && !(kv.2.recipient == address))).map
        (fun kv => kv.2.amount)).sum)

/-! ## Claim theorems -/

/-- C1: the claim asks that a commitment be `G*value + H*blinding` and
that `verify_commitment` never report `true` for a differing
`(value, blinding)` pair.  The source uses the single generator `G` for
both summands, so the commitment to `(1, 2)` — the point `G*3` — also
verifies for the opening `(2, 1)`: binding fails at this concrete
input. -/
theorem c1_commitment_binding_violated :
    verify_commitment (create_commitment 1 (some 2) 0).1 2 1 = true ∧
    ((2 : Nat), (1 : Nat)) ≠ ((1 : Nat), (2 : Nat)) := by
  constructor
  · decide
  · decide

/-- C2: the claim asks that range-proof generation fail for every value
outside `[min, max]`.  `create_range_proof` range-checks the commitment
`g*amount + h*blinding_factor`, not the amount: with emulated generators
`g = h = 1`, amount `200`, blinding draw `60` and range `[250, 300]`,
the commitment is `260 ∈ [250, 300]`, so a proof is produced although
`200 ∉ [250, 300]`. -/
theorem c2_range_proof_for_out_of_range_value (sha : String → Nat) :
    (create_range_proof sha 200 1 1 250 300 60).isOk = true ∧
    ¬ ((250 : Int) ≤ 200 ∧ (200 : Int) ≤ 300) := by
  exact ⟨rfl, by decide⟩

/-- C3: the claim asks that a proof generated for `(C1, 0, 100)` make
`verify_bulletproof` return `false` against `(C1, 0, 99)`, against any
other commitment, and for any altered proof.  For `C1 = 100` a proof is
generated for `(100, 0, 100)`, but verification against `(100, 0, 99)`
raises `ValueError` (the regenerated proof's range check fails) instead
of returning `false` — for every candidate proof value, in particular
the generated one. -/
theorem c3_verify_raises_instead_of_false (sha : String → Nat) :
    (generate_bulletproof sha 100 0 100 true).isOk = true ∧
    ∀ proof : Nat,
      verify_bulletproof sha 100 proof 0 99 true = .error .valueError := by
  exact ⟨rfl, fun _ => rfl⟩

/-- C5: the claim asks that `verify_signature` never throw and return
`false` on malformed signature bytes.  `bytes.fromhex(signature)` raises
`ValueError` on the non-hex string `"zz"`, and the `try` catches only
`BadSignatureError`, so the exception escapes — for every external
Keccak / ECDSA behaviour and every public key accepted by
`VerifyingKey.from_string`. -/
theorem c5_verify_signature_raises_on_nonhex_signature
    (keccak_of_tx : Tx → List Nat) (from_string_ok : List Nat → Bool)
    (ecdsa_verify : List Nat → List Nat → List Nat → Bool)
    (tx : Tx) (public_key : String) (pk_bytes : List Nat)
    (hpk : bytes_fromhex public_key = some pk_bytes)
    (hok : from_string_ok pk_bytes = true) :
    verify_signature keccak_of_tx from_string_ok ecdsa_verify
      tx public_key "zz" = .error .valueError := by
  have hz : bytes_fromhex "zz" = none := by decide
  unfold verify_signature
  rw [hpk]
  simp [hok, hz]

/-- Witness for C5 at a concrete malformed signature: public key `"ab"`
decodes to the byte `171` and is accepted by the (instantiated)
`from_string` stub, yet verification of the signature `"zz"` raises. -/
theorem c5_verify_signature_raises_witness :
    verify_signature (fun _ => []) (fun _ => true) (fun _ _ _ => true)
      ⟨"financial_tx", "s", "r", 100, "sig"⟩ "ab" "zz" = .error .valueError :=
  c5_verify_signature_raises_on_nonhex_signature
    (fun _ => []) (fun _ => true) (fun _ _ _ => true)
    ⟨"financial_tx", "s", "r", 100, "sig"⟩ "ab" [171] (by decide) rfl

/-- C10: `create_commitment` treats a supplied blinding of `0` exactly
like an omitted one — Python's `or` replaces both `None` and `0` by the
fresh random draw — so the returned blinding is the fresh scalar, a
nonzero supplied blinding is returned unchanged, and whenever the fresh
draw is a nonzero scalar below the group order, the produced commitment
does not verify for the explicit opening `(value, 0)`. -/
theorem c10_zero_blinding_treated_as_absent (value fresh : Nat) :
    create_commitment value (some 0) fresh = create_commitment value none fresh ∧
    (create_commitment value (some 0) fresh).2 = fresh ∧
    (∀ r : Nat, r ≠ 0 →
      create_commitment value (some r) fresh
        = ((value + r) % secp256k1_order, r)) ∧
    (fresh < secp256k1_order → fresh ≠ 0 →
      verify_commitment (create_commitment value (some 0) fresh).1 value 0
        = false) := by
  refine ⟨rfl, rfl, fun r hr => by simp [create_commitment, hr], ?_⟩
  intro hlt hne
  have hc : (create_commitment value (some 0) fresh).1
      = (value + fresh) % secp256k1_order := rfl
  rw [hc]
  unfold verify_commitment
  rw [beq_eq_false_iff_ne]
  intro h
  have hmod : Nat.ModEq secp256k1_order (value + fresh) (value + 0) := by
    simpa [Nat.ModEq] using h
  have hz : Nat.ModEq secp256k1_order fresh 0 :=
    Nat.ModEq.add_left_cancel (Nat.ModEq.refl value) hmod
  have : fresh % secp256k1_order = 0 := by
    simpa [Nat.ModEq] using hz
  rw [Nat.mod_eq_of_lt hlt] at this
  exact hne this

/-- Witness for C10 at `value = 5`, `fresh = 7`, supplied blinding `3`:
the nonzero blinding is kept, and with blinding `0` supplied the
commitment does not open at `(5, 0)`. -/
theorem c10_zero_blinding_treated_as_absent_witness :
    create_commitment 5 (some 3) 7 = ((5 + 3) % secp256k1_order, 3) ∧
    verify_commitment (create_commitment 5 (some 0) 7).1 5 0 = false :=
  ⟨(c10_zero_blinding_treated_as_absent 5 7).2.2.1 3 (by decide),
   (c10_zero_blinding_treated_as_absent 5 7).2.2.2 (by decide) (by decide)⟩

/-! ## Store lemmas -/

/-- Looking up a key right after `put` finds the stored value. -/
theorem get_put_same {α : Type} (k : String) (v : α) (db : List (String × α)) :
    get_kv k (put_kv k v db) = some v := by
  induction db with
  | nil => simp [put_kv, get_kv]
  | cons kv t ih =>
    by_cases h : kv.1 = k
    · simp [put_kv, get_kv, h]
    · simp [put_kv, get_kv, h, ih]

/-- Looking up a key right after `delete` finds nothing. -/
theorem get_delete_same {α : Type} (k : String) (db : List (String × α)) :
    get_kv k (delete_kv k db) = none := by
  induction db with
  | nil => simp [delete_kv, get_kv]
  | cons kv t ih =>
    by_cases h : kv.1 = k
    · simpa [delete_kv, h] using ih
    · simpa [delete_kv, get_kv, h] using ih

/-- C4 counterexample: a record with transaction key `"financial_tx_aa"`
is already stored, yet a second `save_transaction` of the very
transaction behind that key succeeds (`.ok`) — the source performs an
unconditional `txn.put` and never raises a duplicate error. -/
theorem c4_second_save_succeeds_cex :
    get_kv "financial_tx_aa"
        [("financial_tx_aa", (⟨"financial_tx", "s", "r", 100, "sig"⟩ : Tx))]
      = some ⟨"financial_tx", "s", "r", 100, "sig"⟩ ∧
    (save_transaction (fun _ => "aa")
        [("financial_tx_aa", (⟨"financial_tx", "s", "r", 100, "sig"⟩ : Tx))]
        ⟨"financial_tx", "s", "r", 100, "sig"⟩).isOk = true := by
  constructor
  · decide
  · decide

/-- C4 amended: `save_transaction` never fails; for every prior store
state it returns `.ok` of the store where the transaction's
`family_id` key now holds this record — last write wins, existing
records at the key are overwritten rather than rejected. -/
theorem c4_save_overwrites (gen_tx_id : Tx → String)
    (db : List (String × Tx)) (tx : Tx) :
    ∃ db', save_transaction gen_tx_id db tx = .ok db' ∧
      get_kv (tx_key gen_tx_id tx) db' = some tx :=
  ⟨put_kv (tx_key gen_tx_id tx) tx db, rfl, get_put_same _ _ _⟩

/-- C6: a transaction anchored at `t0` in the emulator can be cancelled
at any `now` with `now - t0 ≤ cancellation_window` — the cancel call
returns `True` and removes the anchor — while for `now - t0` beyond the
window it fails (returns `False`, the emulator's `WindowExpired`
signal) and leaves the anchor store untouched. -/
theorem c6_cancellation_window (em : TransactionEmulator) (tx_id : String)
    (t0 now : Int) (h : get_kv tx_id em.notaryStorage = some t0) :
    (now - t0 ≤ em.cancellationWindow →
      (cancel_transaction em now tx_id).1 = true ∧
      get_kv tx_id (cancel_transaction em now tx_id).2.notaryStorage = none) ∧
    (em.cancellationWindow < now - t0 →
      cancel_transaction em now tx_id = (false, em)) := by
  constructor
  · intro hle
    have hnot : ¬ (now - t0 > em.cancellationWindow) := not_lt.mpr hle
    simp only [cancel_transaction, h]
    rw [if_neg hnot]
    exact ⟨rfl, get_delete_same _ _⟩
  · intro hgt
    simp only [cancel_transaction, h]
    rw [if_pos hgt]

/-- Witness for C6: anchor at `t0 = 0` with the emulator's 120-second
window; cancelling at `t = 119` succeeds and removes the anchor,
cancelling at `t = 121` returns `False` and changes nothing. -/
theorem c6_cancellation_window_witness :
    ((cancel_transaction ⟨[("t1", 0)], 120⟩ 119 "t1").1 = true ∧
      get_kv "t1"
        (cancel_transaction ⟨[("t1", 0)], 120⟩ 119 "t1").2.notaryStorage
        = none) ∧
    cancel_transaction ⟨[("t1", 0)], 120⟩ 121 "t1"
      = (false, ⟨[("t1", 0)], 120⟩) :=
  ⟨(c6_cancellation_window ⟨[("t1", 0)], 120⟩ "t1" 0 119 (by decide)).1
      (by decide),
   (c6_cancellation_window ⟨[("t1", 0)], 120⟩ "t1" 0 121 (by decide)).2
      (by decide)⟩

/-- C7: a notary record whose `expires_at` lies strictly before the
current time is invisible to reads: `get_notary_record` returns `None`
and lazily deletes it from the store, and `list_notary_records` (with
the default `include_expired=False`) omits it — even though it was
never explicitly deleted. -/
theorem c7_expired_record_absent (db : List (String × NotaryRecord))
    (record_id : String) (rec : NotaryRecord) (e now : Int)
    (hrec : get_kv ("notary_" ++ record_id) db = some rec)
    (hexp : rec.expiresAt = some e) (hlt : e < now) :
    (get_notary_record now db record_id).1 = none ∧
    get_kv ("notary_" ++ record_id) (get_notary_record now db record_id).2
      = none ∧
    rec ∉ list_notary_records now false db := by
  have hmain : get_notary_record now db record_id
      = (none, delete_kv ("notary_" ++ record_id) db) := by
    simp only [get_notary_record, hrec, hexp]
    rw [if_pos hlt]
  refine ⟨by rw [hmain], by rw [hmain]; exact get_delete_same _ _, ?_⟩
  intro hmem
  simp only [list_notary_records, List.mem_map] at hmem
  obtain ⟨kv, hkv, hkveq⟩ := hmem
  rw [List.mem_filter] at hkv
  obtain ⟨-, hp⟩ := hkv
  rw [Bool.and_eq_true] at hp
  obtain ⟨-, hp2⟩ := hp
  rw [hkveq, hexp] at hp2
  simp at hp2
  omega

/-- Witness for C7: one record with `expires_at = 5`, read at time 10:
the get returns `None` and deletes it, and the listing omits it. -/
theorem c7_expired_record_absent_witness :
    (get_notary_record 10 [("notary_r1", ⟨"c", "s", 0, some 5⟩)] "r1").1
      = none ∧
    get_kv "notary_r1"
        (get_notary_record 10 [("notary_r1", ⟨"c", "s", 0, some 5⟩)] "r1").2
      = none ∧
    (⟨"c", "s", 0, some 5⟩ : NotaryRecord)
      ∉ list_notary_records 10 false [("notary_r1", ⟨"c", "s", 0, some 5⟩)] :=
  c7_expired_record_absent [("notary_r1", ⟨"c", "s", 0, some 5⟩)] "r1"
    ⟨"c", "s", 0, some 5⟩ 5 10 (by decide) rfl (by decide)

/-- C8 counterexample: at the advanced compliance level, with an empty
blacklist and a whitelist containing only `"w"`, neither candidate
address `"s"` nor `"r"` is whitelisted — yet `check_compliance` (with
the PSI membership intersection) reports the status `"Compliant"`,
where the claim demands `NonCompliant`. -/
theorem c8_whitelist_absence_ignored_cex :
    (check_compliance psi_intersect [] ["w"] COMPLIANCE_LEVEL_ADVANCED
        ["s", "r"]).complianceStatus = "Compliant" ∧
    ("s" ∉ (["w"] : List String) ∧ "r" ∉ (["w"] : List String)) := by
  constructor
  · decide
  · decide

/-- C8 amended: the compliance status is `"Non-compliant"` exactly when
the candidate set intersects the blacklist; the whitelist intersection
is reported but never influences the status, and the advanced
compliance level changes only the `details` note, not the status. -/
theorem c8_status_tracks_blacklist_only
    (intersect : List String → List String → List String)
    (blacklist whitelist : List String) (compliance_level : Nat)
    (address_set : List String) :
    ((check_compliance intersect blacklist whitelist compliance_level
        address_set).complianceStatus = "Non-compliant"
      ↔ intersect address_set blacklist ≠ []) ∧
    (check_compliance intersect blacklist whitelist compliance_level
        address_set).complianceStatus
      = (check_compliance intersect blacklist whitelist
          COMPLIANCE_LEVEL_BASIC address_set).complianceStatus ∧
    (check_compliance intersect blacklist whitelist compliance_level
        address_set).whitelistMatches = intersect address_set whitelist := by
  refine ⟨?_, rfl, rfl⟩
  unfold check_compliance
  by_cases h : intersect address_set blacklist = []
  · simp [h]
  · simp [h]

/-- Per-record contribution of the `get_balance` scan loop: `+amount`
for a family record whose recipient matches, else `-amount` when the
sender matches, else `0`. -/
def tx_contribution (address tx_family : String) (kv : String × Tx) : Int :=
  if starts_with_str kv.1 (tx_family ++ "_") then
    if kv.2.recipient = address then kv.2.amount
    else if kv.2.sender = address then -kv.2.amount
    else 0
  else 0

/-- The `get_balance` fold is the sum of the per-record contributions. -/
theorem get_balance_eq_sum (address tx_family : String)
    (db : List (String × Tx)) :
    get_balance address tx_family db
      = (db.map (tx_contribution address tx_family)).sum := by
  have key : ∀ (l : List (String × Tx)) (b : Int),
      l.foldl (fun balance kv =>
        if starts_with_str kv.1 (tx_family ++ "_") then
          if kv.2.recipient = address then balance + kv.2.amount
          else if kv.2.sender = address then balance - kv.2.amount
          else balance
        else balance) b
      = b + (l.map (tx_contribution address tx_family)).sum := by
    intro l
    induction l with
    | nil => intro b; simp
    | cons kv t ih =>
      intro b
      rw [List.foldl_cons, List.map_cons, List.sum_cons, ih]
      unfold tx_contribution
      split_ifs <;> ring
  simpa [get_balance] using key db 0

/-- C9 counterexample: a single stored family record whose sender and
recipient are both the queried address.  `get_balance` returns `+100`
(the `elif` gives the recipient clause precedence), while the claim's
sum — `+amount` for the recipient match and `-amount` for the sender
match, applied independently — returns `0`. -/
theorem c9_self_transaction_cex :
    get_balance "a" "fam" [("fam_x", ⟨"fam", "a", "a", 100, "sig"⟩)] = 100 ∧
    balance_spec_c9 "a" "fam" [("fam_x", ⟨"fam", "a", "a", 100, "sig"⟩)]
      = 0 := by
  constructor
  · decide
  · decide

/-- C9 amended: `get_balance` equals the claim's two-sum formula with
the recipient clause taking precedence — `+amount` over family records
whose recipient is the address, minus `amount` over family records
whose sender is the address and whose recipient is not (so the
end-to-end scenario with distinct sender and recipient still yields
`+100` / `-100`). -/
theorem c9_balance_recipient_precedence (address tx_family : String)
    (db : List (String × Tx)) :
    get_balance address tx_family db
      = balance_amended_c9 address tx_family db := by
  rw [get_balance_eq_sum]
  induction db with
  | nil => simp [balance_amended_c9]
  | cons kv t ih =>
    simp only [balance_amended_c9, List.map_cons, List.sum_cons,
      List.filter_cons] at ih ⊢
    by_cases h1 : starts_with_str kv.1 (tx_family ++ "_") = true <;>
      by_cases h2 : kv.2.recipient = address <;>
        by_cases h3 : kv.2.sender = address <;>
          simp [tx_contribution, h1, h2, h3] <;> omega
